import Mathlib

/-!
Shallow embedding of the GT-IA tax core (tax regime engine and credit-recovery
opportunity detector) and proofs about it.

Monetary amounts are modelled as rationals (`ℚ`); the Python `Decimal`
arithmetic in the source is exact, with explicit quantization steps modelled by
the rounding functions below.  `quantize(Decimal("0.01"), rounding=ROUND_HALF_UP)`
is `roundHalfUp2`; a bare `quantize(Decimal("0.01"))` uses the default decimal
context rounding `ROUND_HALF_EVEN` and is modelled by `roundHalfEven2`.

Two simulator variants exist in the repository:
- `simulate_regimes` embeds `src/py/tax_engine.py` (detailed cost-category
  credits for Lucro Real);
- `simulate_regimes_v1` embeds `src/tax_engine.py` (no per-category credits;
  a flat 0.7 credit-efficiency factor on Lucro Real PIS/COFINS).

The opportunity detector embeds `CreditRecoveryAgent.analyze_credits` from
`src/py/credit_recovery.py`; the single Python loop is decomposed into
per-month functions (one per accumulator), which is equivalent because each
iteration's contribution depends only on that month's record.
-/

/-- Decimal `ROUND_HALF_UP` to an integer: nearest integer, ties away from
zero (the rounding mode named explicitly throughout the source). -/
def roundHalfUp (q : ℚ) : ℤ :=
  if 0 ≤ q then ⌊q + 1/2⌋ else -⌊-q + 1/2⌋

/-- Quantization to 2 decimal places with `ROUND_HALF_UP`, i.e.
`x.quantize(Decimal("0.01"), rounding=ROUND_HALF_UP)`. -/
def roundHalfUp2 (q : ℚ) : ℚ :=
  (roundHalfUp (q * 100) : ℚ) / 100

/-- Decimal `ROUND_HALF_EVEN` to an integer: nearest integer, ties to the even
neighbour (the default context rounding used by bare `quantize` calls). -/
def roundHalfEven (q : ℚ) : ℤ :=
  if q - ⌊q⌋ < 1/2 then ⌊q⌋
  else if 1/2 < q - ⌊q⌋ then ⌊q⌋ + 1
  else if ⌊q⌋ % 2 = 0 then ⌊q⌋ else ⌊q⌋ + 1

/-- Quantization to 2 decimal places with `ROUND_HALF_EVEN`, i.e.
`x.quantize(Decimal("0.01"))` under the default decimal context. -/
def roundHalfEven2 (q : ℚ) : ℚ :=
  (roundHalfEven (q * 100) : ℚ) / 100

/-- The `costs` entry of the simulator input: either a single aggregate amount
or a per-category breakdown (a Python dict, modelled as an association list). -/
inductive CostsInput where
  | aggregate (amount : ℚ)
  | breakdown (items : List (String × ℚ))

/-- Total of the costs input: the aggregate amount itself, or
`sum(costs.values())` for a breakdown. -/
def costsTotal : CostsInput → ℚ
  | CostsInput.aggregate a => a
  | CostsInput.breakdown items => items.foldl (fun acc p => acc + p.2) 0

/-- The `detailed_costs` dict passed to `calculate_pis_cofins`: empty when the
input was a plain amount. -/
def costsDetailed : CostsInput → List (String × ℚ)
  | CostsInput.aggregate _ => []
  | CostsInput.breakdown items => items

/-- `dict.get(key, 0)` on a cost breakdown. -/
def getCost (items : List (String × ℚ)) (key : String) : ℚ :=
  match items.find? (fun p => p.1 = key) with
  | some p => p.2
  | none => 0

/-- TaxEngine.calculate_inss_patronal (identical in both source variants):
0 for the regime string SIMPLES_NACIONAL, otherwise 20% of payroll, rounded
half-up to 2 decimals. -/
def calculate_inss_patronal (payroll_amount : ℚ) (regime : String) : ℚ :=
  if regime = "SIMPLES_NACIONAL" then 0
  else roundHalfUp2 (payroll_amount * (20/100))

/-- Cost categories eligible for PIS/COFINS credits (Lucro Real,
`src/py/tax_engine.py`). -/
def credit_categories : List String :=
  ["energia_eletrica", "aluguel_predios", "maquinas_equipamentos", "insumos_diretos"]

/-- Loop in `calculate_pis_cofins` summing the breakdown values whose category
belongs to `credit_categories`. -/
def eligibleCreditBase (detailed_costs : List (String × ℚ)) : ℚ :=
  detailed_costs.foldl
    (fun acc p => if credit_categories.contains p.1 then acc + p.2 else acc) 0

/-- Result triple of `calculate_pis_cofins` in `src/py/tax_engine.py`. -/
structure PisCofinsResult where
  pis : ℚ
  cofins : ℚ
  total_credits : ℚ

/-- TaxEngine.calculate_pis_cofins from `src/py/tax_engine.py`: cumulative
rates for LUCRO_PRESUMIDO, non-cumulative rates with per-category credits for
LUCRO_REAL, all-zero otherwise.  The Python `if detailed_costs:` truthiness
test is the emptiness test on the association list. -/
def calculate_pis_cofins (revenue : ℚ) (regime : String)
    (detailed_costs : List (String × ℚ)) : PisCofinsResult :=
  if regime = "LUCRO_PRESUMIDO" then
    let pis_debit := revenue * (65/10000)
    let cofins_debit := revenue * (300/10000)
    { pis := roundHalfUp2 (max (pis_debit - 0) 0),
      cofins := roundHalfUp2 (max (cofins_debit - 0) 0),
      total_credits := roundHalfUp2 (0 + 0) }
  else if regime = "LUCRO_REAL" then
    let pis_debit := revenue * (165/10000)
    let cofins_debit := revenue * (760/10000)
    let pis_credit := if detailed_costs = [] then 0
      else eligibleCreditBase detailed_costs * (165/10000)
    let cofins_credit := if detailed_costs = [] then 0
      else eligibleCreditBase detailed_costs * (760/10000)
    { pis := roundHalfUp2 (max (pis_debit - pis_credit) 0),
      cofins := roundHalfUp2 (max (cofins_debit - cofins_credit) 0),
      total_credits := roundHalfUp2 (pis_credit + cofins_credit) }
  else
    { pis := 0, cofins := 0, total_credits := 0 }

/-- Result pair of `calculate_irrf_csll`. -/
structure IrpjCsllResult where
  irpj : ℚ
  csll : ℚ

/-- TaxEngine.calculate_irrf_csll (identical in both source variants). -/
def calculate_irrf_csll (revenue total_costs : ℚ) (regime : String)
    (is_service : Bool) : IrpjCsllResult :=
  if regime = "SIMPLES_NACIONAL" then { irpj := 0, csll := 0 }
  else
    let calculation_base_ir : ℚ :=
      if regime = "LUCRO_PRESUMIDO" then
        revenue * (if is_service then (32/100) else (8/100))
      else if regime = "LUCRO_REAL" then max (revenue - total_costs) 0
      else 0
    let calculation_base_csll : ℚ :=
      if regime = "LUCRO_PRESUMIDO" then revenue * (32/100)
      else if regime = "LUCRO_REAL" then max (revenue - total_costs) 0
      else 0
    let basic_ir := calculation_base_ir * (15/100)
    let additional_ir : ℚ :=
      if 20000 < calculation_base_ir then (calculation_base_ir - 20000) * (10/100)
      else 0
    { irpj := roundHalfUp2 (basic_ir + additional_ir),
      csll := roundHalfUp2 (calculation_base_csll * (9/100)) }

/-- TaxEngine.calculate_iss (identical in both source variants); `city_rate`
is a percentage (5.0 at every call site). -/
def calculate_iss (revenue city_rate : ℚ) : ℚ :=
  roundHalfUp2 (revenue * (city_rate / 100))

/-- Python `min(regimes, key=regimes.get)` over the dict built in insertion
order Simples Nacional, Lucro Presumido, Lucro Real: the first regime
attaining the minimum wins. -/
def bestOf (s p r : ℚ) : String :=
  if p < s then (if r < p then "Lucro Real" else "Lucro Presumido")
  else (if r < s then "Lucro Real" else "Simples Nacional")

/-- Input record of `simulate_regimes`: the `revenue`, `payroll` and `costs`
entries of `annual_data` (absent entries default to 0, modelled by the caller
passing 0 / an empty aggregate). -/
structure AnnualData where
  revenue : ℚ
  payroll : ℚ
  costs : CostsInput

/-- Returned dict of `simulate_regimes` in `src/py/tax_engine.py`: the three
`results` entries (quantized half-even by `str(v.quantize(Decimal("0.01")))`),
`credits_found_lr`, `recommendation` and `savings`. -/
structure SimulationResult where
  results_simples : ℚ
  results_presumido : ℚ
  results_real : ℚ
  credits_found_lr : ℚ
  recommendation : String
  savings : ℚ

/-- TaxEngine.simulate_regimes from `src/py/tax_engine.py`. -/
def simulate_regimes (annual_data : AnnualData) : SimulationResult :=
  let revenue := annual_data.revenue
  let payroll := annual_data.payroll
  let detailed_costs := costsDetailed annual_data.costs
  let total_param_costs := costsTotal annual_data.costs
  let simples_rate : ℚ := if 3600000 < revenue then (30/100) else (10/100)
  let total_simples := revenue * simples_rate
  let lp_inss := calculate_inss_patronal payroll "LUCRO_PRESUMIDO"
  let lp_piscofins := calculate_pis_cofins revenue "LUCRO_PRESUMIDO" detailed_costs
  let lp_ir_csll := calculate_irrf_csll revenue total_param_costs "LUCRO_PRESUMIDO" true
  let lp_iss := calculate_iss revenue 5
  let total_presumido := lp_inss + lp_piscofins.pis + lp_piscofins.cofins +
    lp_ir_csll.irpj + lp_ir_csll.csll + lp_iss
  let lr_inss := calculate_inss_patronal payroll "LUCRO_REAL"
  let lr_piscofins := calculate_pis_cofins revenue "LUCRO_REAL" detailed_costs
  let lr_ir_csll := calculate_irrf_csll revenue total_param_costs "LUCRO_REAL" true
  let lr_iss := calculate_iss revenue 5
  let total_real := lr_inss + lr_piscofins.pis + lr_piscofins.cofins +
    lr_ir_csll.irpj + lr_ir_csll.csll + lr_iss
  { results_simples := roundHalfEven2 total_simples,
    results_presumido := roundHalfEven2 total_presumido,
    results_real := roundHalfEven2 total_real,
    credits_found_lr := lr_piscofins.total_credits,
    recommendation := bestOf total_simples total_presumido total_real,
    savings := roundHalfEven2
      (max total_simples (max total_presumido total_real) -
       min total_simples (min total_presumido total_real)) }

/-- Result pair of `calculate_pis_cofins` in `src/tax_engine.py` (the older
variant, which computes no credits). -/
structure PisCofinsResultV1 where
  pis : ℚ
  cofins : ℚ

/-- TaxEngine.calculate_pis_cofins from `src/tax_engine.py`. -/
def calculate_pis_cofins_v1 (revenue : ℚ) (regime : String) : PisCofinsResultV1 :=
  if regime = "LUCRO_PRESUMIDO" then
    { pis := roundHalfUp2 (revenue * (65/10000)),
      cofins := roundHalfUp2 (revenue * (300/10000)) }
  else if regime = "LUCRO_REAL" then
    { pis := roundHalfUp2 (revenue * (165/10000)),
      cofins := roundHalfUp2 (revenue * (760/10000)) }
  else
    { pis := 0, cofins := 0 }

/-- Returned dict of `simulate_regimes` in `src/tax_engine.py`. -/
structure SimulationResultV1 where
  results_simples : ℚ
  results_presumido : ℚ
  results_real : ℚ
  recommendation : String
  savings : ℚ

/-- TaxEngine.simulate_regimes from `src/tax_engine.py`: costs are always a
single amount, and Lucro Real PIS/COFINS is reduced by a flat 0.7
credit-efficiency factor. -/
def simulate_regimes_v1 (revenue payroll costs : ℚ) : SimulationResultV1 :=
  let simples_rate : ℚ := if 3600000 < revenue then (30/100) else (10/100)
  let total_simples := revenue * simples_rate
  let lp_inss := calculate_inss_patronal payroll "LUCRO_PRESUMIDO"
  let lp_piscofins := calculate_pis_cofins_v1 revenue "LUCRO_PRESUMIDO"
  let lp_ir_csll := calculate_irrf_csll revenue costs "LUCRO_PRESUMIDO" true
  let lp_iss := calculate_iss revenue 5
  let total_presumido := lp_inss + lp_piscofins.pis + lp_piscofins.cofins +
    lp_ir_csll.irpj + lp_ir_csll.csll + lp_iss
  let lr_inss := calculate_inss_patronal payroll "LUCRO_REAL"
  let lr_piscofins := calculate_pis_cofins_v1 revenue "LUCRO_REAL"
  let lr_piscofins_total := (lr_piscofins.pis + lr_piscofins.cofins) * (7/10)
  let lr_ir_csll := calculate_irrf_csll revenue costs "LUCRO_REAL" true
  let lr_iss := calculate_iss revenue 5
  let total_real := lr_inss + lr_piscofins_total +
    lr_ir_csll.irpj + lr_ir_csll.csll + lr_iss
  { results_simples := roundHalfEven2 total_simples,
    results_presumido := roundHalfEven2 total_presumido,
    results_real := roundHalfEven2 total_real,
    recommendation := bestOf total_simples total_presumido total_real,
    savings := roundHalfEven2
      (max total_simples (max total_presumido total_real) -
       min total_simples (min total_presumido total_real)) }

/-- Record of one month of fiscal history handed to `analyze_credits`
(`src/py/credit_recovery.py`).  A missing `paid_regime` key is `none`; missing
or falsy numeric fields are modelled by the value 0 (the code's own default). -/
structure MonthData where
  period : String
  paid_amount : ℚ
  paid_regime : Option String
  revenue : ℚ
  payroll : ℚ
  costs : CostsInput

/-- `month_data.get('paid_regime', 'LUCRO_PRESUMIDO')`. -/
def usedRegime (m : MonthData) : String :=
  m.paid_regime.getD "LUCRO_PRESUMIDO"

/-- The per-month call `self.tax_engine.simulate_regimes(sim_input)`. -/
def monthSim (m : MonthData) : SimulationResult :=
  simulate_regimes { revenue := m.revenue, payroll := m.payroll, costs := m.costs }

/-- Lookup `sim['results'][name]` for one of the three regime names. -/
def resultFor (sim : SimulationResult) (name : String) : ℚ :=
  if name = "Simples Nacional" then sim.results_simples
  else if name = "Lucro Presumido" then sim.results_presumido
  else sim.results_real

/-- `optimal = Decimal(sim['results'][best])` where `best` is the
recommendation of the month's simulation. -/
def optimalFor (m : MonthData) : ℚ :=
  resultFor (monthSim m) (monthSim m).recommendation

/-- One detected finding, as appended to the `opportunities` list.  The
`description` strings keep the constant text of the source; the interpolated
monetary values of the REGIME_MISMATCH description are rendered with
`toString` rather than Python's thousands-separator formatting. -/
structure Opportunity where
  type : String
  period : String
  description : String
  value : ℚ
  legal_basis : String
  risk : String

/-- `pis_cofins_rate` as assigned in the loop body: 9.25% when the used regime
is the string LUCRO_REAL, otherwise 3.65%. -/
def pisCofinsRateFor (m : MonthData) : ℚ :=
  if usedRegime m = "LUCRO_REAL" then (925/10000) else (365/10000)

/-- REGIME_MISMATCH branch of the loop in `analyze_credits`: emitted when
`paid > optimal` and the difference exceeds the materiality floor of 10. -/
def mismatchOpp (m : MonthData) : List Opportunity :=
  let best := (monthSim m).recommendation
  let optimal := optimalFor m
  let paid := m.paid_amount
  if optimal < paid then
    if 10 < paid - optimal then
      [{ type := "REGIME_MISMATCH", period := m.period,
         description := "Empresa pagou R$ " ++ toString paid ++ " no " ++
           usedRegime m ++ ", mas poderia pagar R$ " ++ toString optimal ++
           " no " ++ best ++ ".",
         value := paid - optimal,
         legal_basis := "Planejamento Tributário / Elisão Fiscal",
         risk := "LOW" }]
    else []
  else []

/-- CREDITO_INSUMO branch: emitted when the recommendation is Lucro Real and
the simulation found positive PIS/COFINS credits.  Note the source appends
this opportunity without adding its value to `total_savings`. -/
def creditoInsumoOpp (m : MonthData) : List Opportunity :=
  if (monthSim m).recommendation = "Lucro Real" then
    if 0 < (monthSim m).credits_found_lr then
      [{ type := "CREDITO_INSUMO", period := m.period,
         description := "Créditos PIS/COFINS sobre Insumos Operacionais (Energia, Aluguel, etc).",
         value := (monthSim m).credits_found_lr,
         legal_basis := "Leis 10.637/02 e 10.833/03",
         risk := "LOW" }]
    else []
  else []

/-- EXCLUSAO_ICMS branch: for a used regime other than the literal string
Simples Nacional, 18% of revenue times the regime's combined rate, emitted
when positive. -/
def exclusaoIcmsOpp (m : MonthData) : List Opportunity :=
  if usedRegime m = "Simples Nacional" then []
  else
    let excluding_icms_savings := m.revenue * (18/100) * pisCofinsRateFor m
    if 0 < excluding_icms_savings then
      [{ type := "EXCLUSAO_ICMS", period := m.period,
         description := "Exclusão do ICMS da base de cálculo do PIS/COFINS (Tese do Século).",
         value := excluding_icms_savings,
         legal_basis := "STF RE 574.706 (Tema 69)",
         risk := "LOW" }]
    else []

/-- MONOFASICO branch: 5% of revenue times the regime's combined rate,
emitted when positive, regardless of regime. -/
def monofasicoOpp (m : MonthData) : List Opportunity :=
  let monofasic_savings := m.revenue * (5/100) * pisCofinsRateFor m
  if 0 < monofasic_savings then
    [{ type := "MONOFASICO", period := m.period,
       description := "Segregação de receitas monofásicas (PIS/COFINS recolhido na indústria).",
       value := monofasic_savings,
       legal_basis := "Lei 10.147/00 (Autopeças/Farmácia/Cosméticos)",
       risk := "MEDIUM" }]
  else []

/-- CREDITO_MARKETING branch: only when the costs input is a breakdown whose
`outros` entry is positive and the resulting credit exceeds 100. -/
def marketingOpp (m : MonthData) : List Opportunity :=
  match m.costs with
  | CostsInput.aggregate _ => []
  | CostsInput.breakdown items =>
    let mkt_cost := getCost items "outros"
    if 0 < mkt_cost then
      let mkt_savings := mkt_cost * pisCofinsRateFor m
      if 100 < mkt_savings then
        [{ type := "CREDITO_MARKETING", period := m.period,
           description := "Crédito PIS/COFINS sobre despesas de Marketing (Conceito estendido de Insumo - CARF).",
           value := mkt_savings,
           legal_basis := "Tese Jurídica Controvertida (Risco de Glosa)",
           risk := "HIGH" }]
      else []
    else []

/-- All opportunities appended while processing one month, in the source's
append order. -/
def monthOpportunities (m : MonthData) : List Opportunity :=
  mismatchOpp m ++ creditoInsumoOpp m ++ exclusaoIcmsOpp m ++
    monofasicoOpp m ++ marketingOpp m

/-- Total added to the running `total_savings` while processing one month,
mirroring each `total_savings +=` statement of the loop (the CREDITO_INSUMO
branch performs no such addition). -/
def monthSavings (m : MonthData) : ℚ :=
  let optimal := optimalFor m
  let paid := m.paid_amount
  (if optimal < paid then (if 10 < paid - optimal then paid - optimal else 0) else 0) +
  (if usedRegime m = "Simples Nacional" then 0
   else
     let excluding_icms_savings := m.revenue * (18/100) * pisCofinsRateFor m
     if 0 < excluding_icms_savings then excluding_icms_savings else 0) +
  (let monofasic_savings := m.revenue * (5/100) * pisCofinsRateFor m
   if 0 < monofasic_savings then monofasic_savings else 0) +
  (match m.costs with
   | CostsInput.aggregate _ => 0
   | CostsInput.breakdown items =>
     let mkt_cost := getCost items "outros"
     if 0 < mkt_cost then
       let mkt_savings := mkt_cost * pisCofinsRateFor m
       if 100 < mkt_savings then mkt_savings else 0
     else 0)

/-- The `regime_comparison` accumulator: one total per regime name. -/
structure RegimeTotals where
  simples : ℚ
  presumido : ℚ
  real : ℚ

/-- Aggregate result of `analyze_credits` (the `period_range` field, a
display-only best-effort label, is not modelled). -/
structure AnalysisResult where
  total_savings : ℚ
  opportunities : List Opportunity
  regime_comparison : RegimeTotals

/-- CreditRecoveryAgent.analyze_credits from `src/py/credit_recovery.py`:
the single Python loop, decomposed into one fold per accumulator (each
iteration's contribution depends only on the month's record). -/
def analyze_credits (history_data : List MonthData) : AnalysisResult :=
  { total_savings := history_data.foldl (fun acc m => acc + monthSavings m) 0,
    opportunities := history_data.foldl (fun acc m => acc ++ monthOpportunities m) [],
    regime_comparison := history_data.foldl
      (fun acc m =>
        { simples := acc.simples + (monthSim m).results_simples,
          presumido := acc.presumido + (monthSim m).results_presumido,
          real := acc.real + (monthSim m).results_real })
      { simples := 0, presumido := 0, real := 0 } }

/-- Substring test on character lists: Python's `"SIMPLES" in norm_regime`. -/
def listContainsSub (p : List Char) : List Char → Bool
  | [] => decide (p = [])
  | c :: t => p.isPrefixOf (c :: t) || listContainsSub p t

/-- Python `pat in s` on strings. -/
def strContains (s pat : String) : Bool :=
  listContainsSub pat.data s.data

/-- `provider_regime.upper().replace(' ', '_')` (ASCII uppercasing, which
covers every regime label in the repository). -/
def normRegime (s : String) : String :=
  String.mk ((s.data.map Char.toUpper).map (fun c => if c = ' ' then '_' else c))

/-- Returned dict of `calculate_retentions_on_invoice`: the fixed retention
keys CSRF, IRRF, INSS and ISS, the base value, the net amount and the list of
warnings. -/
structure RetentionResult where
  base_value : ℚ
  csrf : ℚ
  irrf : ℚ
  inss : ℚ
  iss : ℚ
  total_liquid : ℚ
  warnings : List String

/-- TaxEngine.calculate_retentions_on_invoice from `src/py/tax_engine.py`.
The `is_public_entity` flag is accepted and ignored, as in the source. -/
def calculate_retentions_on_invoice (service_value : ℚ) (provider_regime : String)
    (is_public_entity : Bool) (city_iss_rate : ℚ) : RetentionResult :=
  let _ := is_public_entity
  let val := service_value
  let norm_regime := normRegime provider_regime
  let inss := roundHalfUp2 (val * (11/100))
  let iss := roundHalfUp2 (val * (city_iss_rate / 100))
  if strContains norm_regime "SIMPLES" then
    { base_value := val, csrf := 0, irrf := 0, inss := inss, iss := iss,
      total_liquid := val - (0 + 0 + inss + iss),
      warnings := ["Prestador Simples Nacional: Dispensada retenção de IRRF/CSRF conforme IN RFB."] }
  else
    let csrf_calc := roundHalfUp2 (val * (465/10000))
    let csrf := if csrf_calc < 10 then 0 else csrf_calc
    let irrf := roundHalfUp2 (val * (15/1000))
    { base_value := val, csrf := csrf, irrf := irrf, inss := inss, iss := iss,
      total_liquid := val - (csrf + irrf + inss + iss),
      warnings := if csrf_calc < 10 then ["Valor de CSRF abaixo de R$ 10,00: Retenção dispensada."] else [] }

/-- Cost breakdown of end-to-end scenario B (`src/py/tax_engine.py` main
block and spec §8). -/
def scenarioBCosts : List (String × ℚ) :=
  [("energia_eletrica", 150000), ("insumos_diretos", 800000),
   ("material_escritorio", 5000), ("aluguel_predios", 50000)]

/-- Input of end-to-end scenario B. -/
def scenarioB : AnnualData :=
  { revenue := 2000000, payroll := 400000, costs := CostsInput.breakdown scenarioBCosts }

/-- Example month whose used regime coincides with the simulation's
recommendation (both Simples Nacional) while `paid_amount` exceeds the
recommended total by far more than 10. -/
def exMonthRegimeMatch : MonthData :=
  { period := "01/2024", paid_amount := 50000, paid_regime := some "Simples Nacional",
    revenue := 100000, payroll := 0, costs := CostsInput.aggregate 0 }

/-- Example month for which the recommendation is Lucro Real with positive
input credits: the CREDITO_INSUMO opportunity fires. -/
def exMonthCreditLR : MonthData :=
  { period := "01/2024", paid_amount := 0, paid_regime := some "LUCRO_PRESUMIDO",
    revenue := 1000000, payroll := 0,
    costs := CostsInput.breakdown [("insumos_diretos", 1000000)] }

/-- Example month with zero revenue and an explicit non-Simples used regime. -/
def exMonthZeroRev : MonthData :=
  { period := "02/2024", paid_amount := 0, paid_regime := some "LUCRO_PRESUMIDO",
    revenue := 0, payroll := 0, costs := CostsInput.aggregate 0 }

/-- Example month with zero revenue and no `paid_regime` key. -/
def exMonthZeroRevNoRegime : MonthData :=
  { period := "03/2024", paid_amount := 0, paid_regime := none,
    revenue := 0, payroll := 0, costs := CostsInput.aggregate 0 }

/-- Example month whose used regime is the spaced label "Lucro Real" rather
than the token LUCRO_REAL. -/
def exMonthSpacedLR : MonthData :=
  { period := "05/2024", paid_amount := 0, paid_regime := some "Lucro Real",
    revenue := 100, payroll := 0, costs := CostsInput.aggregate 0 }

/-- Example month with positive revenue and no `paid_regime` key. -/
def exMonthNoRegime : MonthData :=
  { period := "04/2024", paid_amount := 0, paid_regime := none,
    revenue := 100000, payroll := 0, costs := CostsInput.aggregate 0 }

theorem foldl_add_eq (g : MonthData → ℚ) (xs : List MonthData) :
    ∀ a : ℚ, xs.foldl (fun acc m => acc + g m) a = a + (xs.map g).sum := by
  induction xs with
  | nil => intro a; simp
  | cons x xs ih => intro a; simp [ih]; ring

theorem foldl_append_eq (g : MonthData → List Opportunity) (xs : List MonthData) :
    ∀ l : List Opportunity,
      xs.foldl (fun acc m => acc ++ g m) l = l ++ (xs.map g).flatten := by
  induction xs with
  | nil => intro l; simp
  | cons x xs ih => intro l; simp [ih]

theorem analyze_credits_total_eq (h : List MonthData) :
    (analyze_credits h).total_savings = (h.map monthSavings).sum := by
  simpa using foldl_add_eq monthSavings h 0

theorem analyze_credits_opps_eq (h : List MonthData) :
    (analyze_credits h).opportunities = (h.map monthOpportunities).flatten := by
  simpa using foldl_append_eq monthOpportunities h []

theorem mem_mismatchOpp {m : MonthData} {o : Opportunity} (h : o ∈ mismatchOpp m) :
    o.type = "REGIME_MISMATCH" ∧ o.value = m.paid_amount - optimalFor m ∧
      o.risk = "LOW" := by
  simp only [mismatchOpp] at h
  split_ifs at h <;> simp only [List.mem_singleton, List.not_mem_nil] at h
  subst h; exact ⟨rfl, rfl, rfl⟩

theorem mem_creditoInsumoOpp {m : MonthData} {o : Opportunity}
    (h : o ∈ creditoInsumoOpp m) :
    o.type = "CREDITO_INSUMO" ∧ o.value = (monthSim m).credits_found_lr ∧
      o.risk = "LOW" := by
  simp only [creditoInsumoOpp] at h
  split_ifs at h <;> simp only [List.mem_singleton, List.not_mem_nil] at h
  subst h; exact ⟨rfl, rfl, rfl⟩

theorem mem_exclusaoIcmsOpp {m : MonthData} {o : Opportunity}
    (h : o ∈ exclusaoIcmsOpp m) :
    o.type = "EXCLUSAO_ICMS" ∧ o.value = m.revenue * (18/100) * pisCofinsRateFor m ∧
      o.risk = "LOW" := by
  simp only [exclusaoIcmsOpp] at h
  split_ifs at h <;> simp only [List.mem_singleton, List.not_mem_nil] at h
  subst h; exact ⟨rfl, rfl, rfl⟩

theorem mem_monofasicoOpp {m : MonthData} {o : Opportunity}
    (h : o ∈ monofasicoOpp m) :
    o.type = "MONOFASICO" ∧ o.value = m.revenue * (5/100) * pisCofinsRateFor m ∧
      o.risk = "MEDIUM" := by
  simp only [monofasicoOpp] at h
  split_ifs at h <;> simp only [List.mem_singleton, List.not_mem_nil] at h
  subst h; exact ⟨rfl, rfl, rfl⟩

theorem mem_marketingOpp {m : MonthData} {o : Opportunity}
    (h : o ∈ marketingOpp m) : o.type = "CREDITO_MARKETING" := by
  cases hc : m.costs with
  | aggregate a => simp only [marketingOpp, hc, List.not_mem_nil] at h
  | breakdown items =>
    simp only [marketingOpp, hc] at h
    split_ifs at h <;> simp only [List.mem_singleton, List.not_mem_nil] at h
    subst h; rfl

theorem countP_eq_zero_of_types {l : List Opportunity} {t t' : String}
    (ht : ∀ o ∈ l, o.type = t) (hne : t ≠ t') :
    l.countP (fun o => o.type == t') = 0 := by
  rw [List.countP_eq_zero]
  intro o ho
  simp [ht o ho, hne]

theorem pisCofinsRateFor_pos (m : MonthData) : 0 < pisCofinsRateFor m := by
  unfold pisCofinsRateFor
  split_ifs <;> norm_num

theorem icms_value_pos_iff (m : MonthData) :
    0 < m.revenue * (18/100) * pisCofinsRateFor m ↔ 0 < m.revenue := by
  have hr := pisCofinsRateFor_pos m
  constructor
  · intro h
    by_contra hn
    push_neg at hn
    nlinarith
  · intro h
    have h18 : 0 < m.revenue * (18/100) := by nlinarith
    exact mul_pos h18 hr

theorem mismatchOpp_countP (m : MonthData) :
    (mismatchOpp m).countP (fun o => o.type == "REGIME_MISMATCH")
      = if 10 < m.paid_amount - optimalFor m then 1 else 0 := by
  by_cases h1 : optimalFor m < m.paid_amount
  · by_cases h2 : 10 < m.paid_amount - optimalFor m
    · simp [mismatchOpp, h1, h2]
    · simp [mismatchOpp, h1, h2]
  · have h2 : ¬ 10 < m.paid_amount - optimalFor m := by
      intro hc; apply h1; linarith
    simp [mismatchOpp, h1, h2]

theorem exclusaoIcmsOpp_countP (m : MonthData) :
    (exclusaoIcmsOpp m).countP (fun o => o.type == "EXCLUSAO_ICMS")
      = if usedRegime m ≠ "Simples Nacional" ∧ 0 < m.revenue then 1 else 0 := by
  by_cases h1 : usedRegime m = "Simples Nacional"
  · simp [exclusaoIcmsOpp, h1]
  · by_cases h2 : 0 < m.revenue
    · have hpos : 0 < m.revenue * (18/100) * pisCofinsRateFor m :=
        (icms_value_pos_iff m).2 h2
      simp [exclusaoIcmsOpp, h1, h2, hpos]
    · have hnpos : ¬ 0 < m.revenue * (18/100) * pisCofinsRateFor m :=
        fun hc => h2 ((icms_value_pos_iff m).1 hc)
      simp [exclusaoIcmsOpp, h1, h2, hnpos]

theorem monthOpportunities_countP_mismatch (m : MonthData) :
    (monthOpportunities m).countP (fun o => o.type == "REGIME_MISMATCH")
      = if 10 < m.paid_amount - optimalFor m then 1 else 0 := by
  unfold monthOpportunities
  rw [List.countP_append, List.countP_append, List.countP_append, List.countP_append]
  rw [countP_eq_zero_of_types (fun o ho => (mem_creditoInsumoOpp ho).1) (by decide),
    countP_eq_zero_of_types (fun o ho => (mem_exclusaoIcmsOpp ho).1) (by decide),
    countP_eq_zero_of_types (fun o ho => (mem_monofasicoOpp ho).1) (by decide),
    countP_eq_zero_of_types (fun o ho => mem_marketingOpp ho) (by decide)]
  rw [mismatchOpp_countP]
  ring

theorem monthOpportunities_countP_icms (m : MonthData) :
    (monthOpportunities m).countP (fun o => o.type == "EXCLUSAO_ICMS")
      = if usedRegime m ≠ "Simples Nacional" ∧ 0 < m.revenue then 1 else 0 := by
  unfold monthOpportunities
  rw [List.countP_append, List.countP_append, List.countP_append, List.countP_append]
  rw [countP_eq_zero_of_types (fun o ho => (mem_mismatchOpp ho).1) (by decide),
    countP_eq_zero_of_types (fun o ho => (mem_creditoInsumoOpp ho).1) (by decide),
    countP_eq_zero_of_types (fun o ho => (mem_monofasicoOpp ho).1) (by decide),
    countP_eq_zero_of_types (fun o ho => mem_marketingOpp ho) (by decide)]
  rw [exclusaoIcmsOpp_countP]
  ring

theorem mem_monthOpportunities_mismatch {m : MonthData} {o : Opportunity}
    (ho : o ∈ monthOpportunities m) (ht : o.type = "REGIME_MISMATCH") :
    o.value = m.paid_amount - optimalFor m ∧ o.risk = "LOW" := by
  unfold monthOpportunities at ho
  simp only [List.mem_append] at ho
  rcases ho with ((((h | h) | h) | h) | h)
  · exact (mem_mismatchOpp h).2
  · rw [(mem_creditoInsumoOpp h).1] at ht; exact absurd ht (by decide)
  · rw [(mem_exclusaoIcmsOpp h).1] at ht; exact absurd ht (by decide)
  · rw [(mem_monofasicoOpp h).1] at ht; exact absurd ht (by decide)
  · rw [mem_marketingOpp h] at ht; exact absurd ht (by decide)

theorem mem_monthOpportunities_icms {m : MonthData} {o : Opportunity}
    (ho : o ∈ monthOpportunities m) (ht : o.type = "EXCLUSAO_ICMS") :
    o.value = m.revenue * (18/100) * pisCofinsRateFor m ∧ o.risk = "LOW" := by
  unfold monthOpportunities at ho
  simp only [List.mem_append] at ho
  rcases ho with ((((h | h) | h) | h) | h)
  · rw [(mem_mismatchOpp h).1] at ht; exact absurd ht (by decide)
  · rw [(mem_creditoInsumoOpp h).1] at ht; exact absurd ht (by decide)
  · exact (mem_exclusaoIcmsOpp h).2
  · rw [(mem_monofasicoOpp h).1] at ht; exact absurd ht (by decide)
  · rw [mem_marketingOpp h] at ht; exact absurd ht (by decide)

theorem mem_monthOpportunities_mono {m : MonthData} {o : Opportunity}
    (ho : o ∈ monthOpportunities m) (ht : o.type = "MONOFASICO") :
    o.value = m.revenue * (5/100) * pisCofinsRateFor m ∧ o.risk = "MEDIUM" := by
  unfold monthOpportunities at ho
  simp only [List.mem_append] at ho
  rcases ho with ((((h | h) | h) | h) | h)
  · rw [(mem_mismatchOpp h).1] at ht; exact absurd ht (by decide)
  · rw [(mem_creditoInsumoOpp h).1] at ht; exact absurd ht (by decide)
  · rw [(mem_exclusaoIcmsOpp h).1] at ht; exact absurd ht (by decide)
  · exact (mem_monofasicoOpp h).2
  · rw [mem_marketingOpp h] at ht; exact absurd ht (by decide)

theorem mismatchOpp_value_sum (m : MonthData) :
    ((mismatchOpp m).map Opportunity.value).sum
      = if optimalFor m < m.paid_amount then
          (if 10 < m.paid_amount - optimalFor m then m.paid_amount - optimalFor m else 0)
        else 0 := by
  by_cases h1 : optimalFor m < m.paid_amount
  · by_cases h2 : 10 < m.paid_amount - optimalFor m
    · simp [mismatchOpp, h1, h2]
    · simp [mismatchOpp, h1, h2]
  · simp [mismatchOpp, h1]

theorem exclusaoIcmsOpp_value_sum (m : MonthData) :
    ((exclusaoIcmsOpp m).map Opportunity.value).sum
      = if usedRegime m = "Simples Nacional" then 0
        else
          (if 0 < m.revenue * (18/100) * pisCofinsRateFor m then
            m.revenue * (18/100) * pisCofinsRateFor m
          else 0) := by
  by_cases h1 : usedRegime m = "Simples Nacional"
  · simp [exclusaoIcmsOpp, h1]
  · by_cases h2 : 0 < m.revenue * (18/100) * pisCofinsRateFor m
    · simp [exclusaoIcmsOpp, h1, h2]
    · simp [exclusaoIcmsOpp, h1, h2]

theorem monofasicoOpp_value_sum (m : MonthData) :
    ((monofasicoOpp m).map Opportunity.value).sum
      = if 0 < m.revenue * (5/100) * pisCofinsRateFor m then
          m.revenue * (5/100) * pisCofinsRateFor m
        else 0 := by
  by_cases h : 0 < m.revenue * (5/100) * pisCofinsRateFor m
  · simp [monofasicoOpp, h]
  · simp [monofasicoOpp, h]

theorem filter_not_insumo_monthOpportunities (m : MonthData) :
    (monthOpportunities m).filter (fun o => !(o.type == "CREDITO_INSUMO"))
      = mismatchOpp m ++ (exclusaoIcmsOpp m ++ (monofasicoOpp m ++ marketingOpp m)) := by
  have hmis : (mismatchOpp m).filter (fun o => !(o.type == "CREDITO_INSUMO"))
      = mismatchOpp m :=
    List.filter_eq_self.mpr (fun o ho => by simp [(mem_mismatchOpp ho).1])
  have hcre : (creditoInsumoOpp m).filter (fun o => !(o.type == "CREDITO_INSUMO"))
      = [] :=
    List.filter_eq_nil_iff.mpr (fun o ho => by simp [(mem_creditoInsumoOpp ho).1])
  have hicm : (exclusaoIcmsOpp m).filter (fun o => !(o.type == "CREDITO_INSUMO"))
      = exclusaoIcmsOpp m :=
    List.filter_eq_self.mpr (fun o ho => by simp [(mem_exclusaoIcmsOpp ho).1])
  have hmon : (monofasicoOpp m).filter (fun o => !(o.type == "CREDITO_INSUMO"))
      = monofasicoOpp m :=
    List.filter_eq_self.mpr (fun o ho => by simp [(mem_monofasicoOpp ho).1])
  have hmkt : (marketingOpp m).filter (fun o => !(o.type == "CREDITO_INSUMO"))
      = marketingOpp m :=
    List.filter_eq_self.mpr (fun o ho => by simp [mem_marketingOpp ho])
  unfold monthOpportunities
  rw [List.filter_append, List.filter_append, List.filter_append, List.filter_append,
    hmis, hcre, hicm, hmon, hmkt]
  simp

theorem monthSavings_eq (m : MonthData) :
    monthSavings m
      = (((monthOpportunities m).filter
            (fun o => !(o.type == "CREDITO_INSUMO"))).map Opportunity.value).sum := by
  rw [filter_not_insumo_monthOpportunities, List.map_append, List.sum_append,
    List.map_append, List.sum_append, List.map_append, List.sum_append,
    mismatchOpp_value_sum, exclusaoIcmsOpp_value_sum, monofasicoOpp_value_sum]
  cases hc : m.costs with
  | aggregate a =>
    simp only [monthSavings, marketingOpp, hc]
    simp
    ring
  | breakdown items =>
    simp only [monthSavings, marketingOpp, hc]
    by_cases h1 : 0 < getCost items "outros"
    · by_cases h2 : 100 < getCost items "outros" * pisCofinsRateFor m
      · simp [h1, h2]
        ring
      · simp [h1, h2]
        ring
    · simp [h1]
      ring

set_option maxHeartbeats 1000000 in
theorem monthSim_exMonthRegimeMatch :
    monthSim exMonthRegimeMatch
      = { results_simples := 10000, results_presumido := 17530, results_real := 46250,
          credits_found_lr := 0, recommendation := "Simples Nacional",
          savings := 36250 } := by
  simp [monthSim, exMonthRegimeMatch, simulate_regimes, calculate_inss_patronal,
    calculate_pis_cofins, calculate_irrf_csll, calculate_iss, bestOf, costsDetailed,
    costsTotal, eligibleCreditBase, credit_categories, roundHalfUp2, roundHalfUp,
    roundHalfEven2, roundHalfEven]
  norm_num

set_option maxHeartbeats 1000000 in
theorem monthSim_exMonthCreditLR :
    monthSim exMonthCreditLR
      = { results_simples := 100000, results_presumido := 193300, results_real := 50000,
          credits_found_lr := 92500, recommendation := "Lucro Real",
          savings := 143300 } := by
  simp [monthSim, exMonthCreditLR, simulate_regimes, calculate_inss_patronal,
    calculate_pis_cofins, calculate_irrf_csll, calculate_iss, bestOf, costsDetailed,
    costsTotal, eligibleCreditBase, credit_categories, roundHalfUp2, roundHalfUp,
    roundHalfEven2, roundHalfEven]
  norm_num

theorem optimalFor_exMonthRegimeMatch : optimalFor exMonthRegimeMatch = 10000 := by
  simp [optimalFor, monthSim_exMonthRegimeMatch, resultFor]

theorem optimalFor_exMonthCreditLR : optimalFor exMonthCreditLR = 50000 := by
  simp [optimalFor, monthSim_exMonthCreditLR, resultFor]

set_option maxHeartbeats 1000000 in
theorem monthOpportunities_exMonthCreditLR :
    monthOpportunities exMonthCreditLR
      = [{ type := "CREDITO_INSUMO", period := "01/2024",
           description := "Créditos PIS/COFINS sobre Insumos Operacionais (Energia, Aluguel, etc).",
           value := 92500, legal_basis := "Leis 10.637/02 e 10.833/03", risk := "LOW" },
         { type := "EXCLUSAO_ICMS", period := "01/2024",
           description := "Exclusão do ICMS da base de cálculo do PIS/COFINS (Tese do Século).",
           value := 6570, legal_basis := "STF RE 574.706 (Tema 69)", risk := "LOW" },
         { type := "MONOFASICO", period := "01/2024",
           description := "Segregação de receitas monofásicas (PIS/COFINS recolhido na indústria).",
           value := 1825, legal_basis := "Lei 10.147/00 (Autopeças/Farmácia/Cosméticos)",
           risk := "MEDIUM" }] := by
  rw [monthOpportunities, mismatchOpp, creditoInsumoOpp, exclusaoIcmsOpp,
    monofasicoOpp, marketingOpp, monthSim_exMonthCreditLR, optimalFor_exMonthCreditLR]
  simp [exMonthCreditLR, usedRegime, pisCofinsRateFor, getCost]
  norm_num

set_option maxHeartbeats 1000000 in
theorem simulate_v1_scenarioA :
    simulate_regimes_v1 100000 20000 40000
      = { results_simples := 10000, results_presumido := 21530, results_real := 33875,
          recommendation := "Simples Nacional", savings := 23875 } := by
  simp [simulate_regimes_v1, calculate_inss_patronal, calculate_pis_cofins_v1,
    calculate_irrf_csll, calculate_iss, bestOf, roundHalfUp2, roundHalfUp,
    roundHalfEven2, roundHalfEven]
  norm_num

set_option maxHeartbeats 1000000 in
theorem simulate_scenarioB :
    simulate_regimes scenarioB
      = { results_simples := 200000, results_presumido := 468600, results_real := 608800,
          credits_found_lr := 92500, recommendation := "Simples Nacional",
          savings := 408800 } := by
  simp [scenarioB, scenarioBCosts, simulate_regimes, calculate_inss_patronal,
    calculate_pis_cofins, calculate_irrf_csll, calculate_iss, bestOf, costsDetailed,
    costsTotal, eligibleCreditBase, credit_categories, roundHalfUp2, roundHalfUp,
    roundHalfEven2, roundHalfEven]
  norm_num

/-- C1 (amended): a REGIME_MISMATCH opportunity is emitted for a period if and
only if `paid_amount` exceeds the recommended regime's total by more than the
materiality floor of 10, regardless of whether the used regime equals the
recommendation; when emitted it is unique, its value is `paid_amount` minus
the recommended total and its risk is LOW. -/
theorem regime_mismatch_iff_materiality (m : MonthData) :
    ((monthOpportunities m).countP (fun o => o.type == "REGIME_MISMATCH")
        = if 10 < m.paid_amount - optimalFor m then 1 else 0)
    ∧ (∀ o ∈ monthOpportunities m, o.type = "REGIME_MISMATCH" →
        o.value = m.paid_amount - optimalFor m ∧ o.risk = "LOW") :=
  ⟨monthOpportunities_countP_mismatch m,
    fun _ ho ht => mem_monthOpportunities_mismatch ho ht⟩

/-- C1 counterexample: a period whose used regime equals the simulation's
recommendation (both Simples Nacional) still produces a REGIME_MISMATCH
opportunity, refuting the claimed "only if the regimes differ" condition. -/
theorem regime_mismatch_fires_despite_regime_match :
    usedRegime exMonthRegimeMatch = (monthSim exMonthRegimeMatch).recommendation
    ∧ (analyze_credits [exMonthRegimeMatch]).opportunities.countP
        (fun o => o.type == "REGIME_MISMATCH") = 1 := by
  constructor
  · rw [monthSim_exMonthRegimeMatch]
    simp [usedRegime, exMonthRegimeMatch]
  · rw [analyze_credits_opps_eq]
    simp only [List.map_cons, List.map_nil, List.flatten_cons, List.flatten_nil,
      List.append_nil]
    rw [monthOpportunities_countP_mismatch, optimalFor_exMonthRegimeMatch]
    norm_num [exMonthRegimeMatch]

/-- C1 witness: the amended criterion instantiated at a concrete period whose
paid amount exceeds the recommended total by 40000. -/
theorem regime_mismatch_iff_materiality_witness :
    (monthOpportunities exMonthRegimeMatch).countP
      (fun o => o.type == "REGIME_MISMATCH") = 1 := by
  have h := (regime_mismatch_iff_materiality exMonthRegimeMatch).1
  rw [optimalFor_exMonthRegimeMatch] at h
  rw [h]
  norm_num [exMonthRegimeMatch]

/-- C2 (amended): `total_savings` equals the sum of the values of the emitted
opportunities of every type except CREDITO_INSUMO, whose value is appended to
the opportunity list without being added to the running total. -/
theorem total_savings_excludes_credito_insumo (history : List MonthData) :
    (analyze_credits history).total_savings
      = (((analyze_credits history).opportunities.filter
            (fun o => !(o.type == "CREDITO_INSUMO"))).map Opportunity.value).sum := by
  rw [analyze_credits_total_eq, analyze_credits_opps_eq]
  induction history with
  | nil => simp
  | cons x xs ih =>
    simp only [List.map_cons, List.sum_cons, List.flatten_cons, List.filter_append,
      List.map_append, List.sum_append]
    rw [monthSavings_eq x, ih]

/-- C2 counterexample: for a single period recommending Lucro Real with 92500
of input credits, `total_savings` is 8395 while the sum of all opportunity
values is 100895, refuting the claim that the two always coincide. -/
theorem total_savings_differs_from_full_sum :
    (analyze_credits [exMonthCreditLR]).total_savings = 8395
    ∧ ((analyze_credits [exMonthCreditLR]).opportunities.map Opportunity.value).sum
        = 100895
    ∧ (analyze_credits [exMonthCreditLR]).total_savings
        ≠ ((analyze_credits [exMonthCreditLR]).opportunities.map Opportunity.value).sum := by
  have hopps : (analyze_credits [exMonthCreditLR]).opportunities
      = monthOpportunities exMonthCreditLR := by
    rw [analyze_credits_opps_eq]; simp
  have htot : (analyze_credits [exMonthCreditLR]).total_savings = 8395 := by
    rw [analyze_credits_total_eq]
    simp only [List.map_cons, List.map_nil, List.sum_cons, List.sum_nil]
    rw [monthSavings_eq, monthOpportunities_exMonthCreditLR]
    simp
    norm_num
  refine ⟨htot, ?_, ?_⟩
  · rw [hopps, monthOpportunities_exMonthCreditLR]
    norm_num
  · rw [htot, hopps, monthOpportunities_exMonthCreditLR]
    norm_num

/-- C3: end-to-end scenario A (revenue 100000, payroll 20000, aggregate costs
40000) on the `src/tax_engine.py` simulator: Lucro Presumido 21530, Lucro
Real 33875, Simples 10000, recommendation Simples Nacional, savings 23875. -/
theorem scenario_a_simulation :
    (simulate_regimes_v1 100000 20000 40000).results_presumido = 21530
    ∧ (simulate_regimes_v1 100000 20000 40000).results_real = 33875
    ∧ (simulate_regimes_v1 100000 20000 40000).results_simples = 10000
    ∧ (simulate_regimes_v1 100000 20000 40000).recommendation = "Simples Nacional"
    ∧ (simulate_regimes_v1 100000 20000 40000).savings = 23875 := by
  rw [simulate_v1_scenarioA]
  exact ⟨rfl, rfl, rfl, rfl, rfl⟩

/-- C4: end-to-end scenario B (revenue 2000000, payroll 400000, detailed cost
breakdown): eligible credit base 1000000, credits 92500, Lucro Presumido
468600, Lucro Real 608800, recommendation Simples Nacional at 200000. -/
theorem scenario_b_simulation :
    eligibleCreditBase scenarioBCosts = 1000000
    ∧ (simulate_regimes scenarioB).credits_found_lr = 92500
    ∧ (simulate_regimes scenarioB).results_presumido = 468600
    ∧ (simulate_regimes scenarioB).results_real = 608800
    ∧ (simulate_regimes scenarioB).recommendation = "Simples Nacional"
    ∧ (simulate_regimes scenarioB).results_simples = 200000 := by
  refine ⟨?_, ?_⟩
  · simp [eligibleCreditBase, scenarioBCosts, credit_categories]
    norm_num
  · rw [simulate_scenarioB]
    exact ⟨rfl, rfl, rfl, rfl, rfl⟩

/-- C5 (amended): an EXCLUSAO_ICMS opportunity is emitted for a period exactly
when the used regime differs from the literal string Simples Nacional AND the
period's revenue is positive (at zero revenue the computed value is 0 and the
source suppresses the emission); when emitted, its value is revenue times 18%
times the combined PIS/COFINS rate of the used regime (9.25% for LUCRO_REAL,
else 3.65%) and its risk is LOW. -/
theorem exclusao_icms_iff_non_simples_positive_revenue (m : MonthData) :
    ((monthOpportunities m).countP (fun o => o.type == "EXCLUSAO_ICMS")
        = if usedRegime m ≠ "Simples Nacional" ∧ 0 < m.revenue then 1 else 0)
    ∧ (∀ o ∈ monthOpportunities m, o.type = "EXCLUSAO_ICMS" →
        o.value = m.revenue * (18/100) *
            (if usedRegime m = "LUCRO_REAL" then (925/10000) else (365/10000))
          ∧ o.risk = "LOW") := by
  refine ⟨monthOpportunities_countP_icms m, fun o ho ht => ?_⟩
  have h := mem_monthOpportunities_icms ho ht
  rwa [pisCofinsRateFor] at h

/-- C5 counterexample: a period with zero revenue and used regime
LUCRO_PRESUMIDO yields no EXCLUSAO_ICMS opportunity although its used regime
is not Simples Nacional, refuting the claimed "exactly when" condition;
moreover the 9.25% rate is keyed to the exact token LUCRO_REAL, so a period
whose used regime is the spaced label "Lucro Real" gets 3.65%, not 9.25%. -/
theorem exclusao_icms_missing_at_zero_revenue :
    (usedRegime exMonthZeroRev ≠ "Simples Nacional"
      ∧ (analyze_credits [exMonthZeroRev]).opportunities.countP
          (fun o => o.type == "EXCLUSAO_ICMS") = 0)
    ∧ (usedRegime exMonthSpacedLR = "Lucro Real"
      ∧ pisCofinsRateFor exMonthSpacedLR = 365/10000
      ∧ (365 : ℚ)/10000 ≠ 925/10000) := by
  refine ⟨⟨?_, ?_⟩, ?_, ?_, by norm_num⟩
  · simp [usedRegime, exMonthZeroRev]
  · rw [analyze_credits_opps_eq]
    simp only [List.map_cons, List.map_nil, List.flatten_cons, List.flatten_nil,
      List.append_nil]
    rw [monthOpportunities_countP_icms]
    simp [exMonthZeroRev]
  · simp [usedRegime, exMonthSpacedLR]
  · simp [pisCofinsRateFor, usedRegime, exMonthSpacedLR]

/-- C5 witness: the amended criterion instantiated at a period with positive
revenue and used regime LUCRO_PRESUMIDO: exactly one EXCLUSAO_ICMS. -/
theorem exclusao_icms_iff_non_simples_positive_revenue_witness :
    (monthOpportunities exMonthNoRegime).countP
      (fun o => o.type == "EXCLUSAO_ICMS") = 1 := by
  have h := (exclusao_icms_iff_non_simples_positive_revenue exMonthNoRegime).1
  rw [h]
  rw [if_pos ⟨by simp [usedRegime, exMonthNoRegime], by norm_num [exMonthNoRegime]⟩]

/-- C6 (amended): the employer-INSS calculator returns 0 exactly for the
regime token SIMPLES_NACIONAL; any other string, including the spaced form
"Simples Nacional", yields payroll times 20% rounded half-up to 2 decimals. -/
theorem inss_simples_token_only :
    (∀ x : ℚ, calculate_inss_patronal x "SIMPLES_NACIONAL" = 0)
    ∧ (∀ (x : ℚ) (r : String), r ≠ "SIMPLES_NACIONAL" →
        calculate_inss_patronal x r = roundHalfUp2 (x * (20/100))) := by
  constructor
  · intro x; simp [calculate_inss_patronal]
  · intro x r hr; simp [calculate_inss_patronal, hr]

/-- C6 counterexample: with the regime string "Simples Nacional" (spaced, as
the claim states) the calculator does not return 0: it charges 20% of the
payroll (20 on a payroll of 100). -/
theorem inss_simples_spaced_name_not_exempt :
    calculate_inss_patronal 100 "Simples Nacional" = 20
    ∧ calculate_inss_patronal 100 "Simples Nacional" ≠ 0 := by
  have h : calculate_inss_patronal 100 "Simples Nacional" = 20 := by
    simp [calculate_inss_patronal, roundHalfUp2, roundHalfUp]
    norm_num
  exact ⟨h, by rw [h]; norm_num⟩

/-- C6 witness: the non-exempt branch instantiated at payroll 100 with the
spaced regime name. -/
theorem inss_simples_token_only_witness :
    ("Simples Nacional" : String) ≠ "SIMPLES_NACIONAL"
    ∧ calculate_inss_patronal 100 "Simples Nacional" = roundHalfUp2 (100 * (20/100)) :=
  ⟨by decide, inss_simples_token_only.2 100 "Simples Nacional" (by decide)⟩

/-- C7: retentions on an invoice: CSRF is zeroed (with a warning) whenever the
computed CSRF amount is below 10.00, both CSRF and IRRF are zeroed (with a
warning) whenever the provider regime, uppercased with spaces replaced by
underscores, contains SIMPLES, and in every case `total_liquid` is the
service value minus the sum of all retentions. -/
theorem retentions_waivers_and_net (v : ℚ) (r : String) (b : Bool) (cr : ℚ) :
    ((calculate_retentions_on_invoice v r b cr).total_liquid
        = v - ((calculate_retentions_on_invoice v r b cr).csrf
            + (calculate_retentions_on_invoice v r b cr).irrf
            + (calculate_retentions_on_invoice v r b cr).inss
            + (calculate_retentions_on_invoice v r b cr).iss))
    ∧ (strContains (normRegime r) "SIMPLES" = true →
        (calculate_retentions_on_invoice v r b cr).csrf = 0
        ∧ (calculate_retentions_on_invoice v r b cr).irrf = 0
        ∧ (calculate_retentions_on_invoice v r b cr).warnings ≠ [])
    ∧ (roundHalfUp2 (v * (465/10000)) < 10 →
        (calculate_retentions_on_invoice v r b cr).csrf = 0
        ∧ (calculate_retentions_on_invoice v r b cr).warnings ≠ []) := by
  by_cases hs : strContains (normRegime r) "SIMPLES" = true
  · simp [calculate_retentions_on_invoice, hs]
  · by_cases hc : roundHalfUp2 (v * (465/10000)) < 10
    · simp [calculate_retentions_on_invoice, hs, hc]
    · simp [calculate_retentions_on_invoice, hs, hc]

/-- C7 witness: a 100-unit invoice from a Simples Nacional provider: the
computed CSRF (4.65) is below 10, the normalized regime contains SIMPLES,
both waivers apply and the net value identity holds. -/
theorem retentions_waivers_and_net_witness :
    strContains (normRegime "Simples Nacional") "SIMPLES" = true
    ∧ roundHalfUp2 ((100 : ℚ) * (465/10000)) < 10
    ∧ ((calculate_retentions_on_invoice 100 "Simples Nacional" false 5).csrf = 0
        ∧ (calculate_retentions_on_invoice 100 "Simples Nacional" false 5).irrf = 0
        ∧ (calculate_retentions_on_invoice 100 "Simples Nacional" false 5).warnings ≠ [])
    ∧ ((calculate_retentions_on_invoice 100 "Simples Nacional" false 5).csrf = 0
        ∧ (calculate_retentions_on_invoice 100 "Simples Nacional" false 5).warnings ≠ []) := by
  refine ⟨by decide, ?_, ?_, ?_⟩
  · norm_num [roundHalfUp2, roundHalfUp]
  · exact (retentions_waivers_and_net 100 "Simples Nacional" false 5).2.1 (by decide)
  · exact (retentions_waivers_and_net 100 "Simples Nacional" false 5).2.2
      (by norm_num [roundHalfUp2, roundHalfUp])

/-- C8: on an empty period list `analyze_credits` returns zero total savings,
an empty opportunity list and zero totals for all three regimes. -/
theorem analyze_credits_empty_history :
    (analyze_credits []).total_savings = 0
    ∧ (analyze_credits []).opportunities = []
    ∧ (analyze_credits []).regime_comparison.simples = 0
    ∧ (analyze_credits []).regime_comparison.presumido = 0
    ∧ (analyze_credits []).regime_comparison.real = 0 :=
  ⟨rfl, rfl, rfl, rfl, rfl⟩

/-- C9: whenever the simulator's costs input is a single aggregate amount (and
revenue is non-negative, per the data model), `credits_found_lr` is 0 and the
Lucro Real total carries the full PIS (1.65%) and COFINS (7.60%) debits with
no credit reduction. -/
theorem aggregate_costs_yield_no_credits (revenue payroll c : ℚ)
    (h : 0 ≤ revenue) :
    (simulate_regimes ⟨revenue, payroll, CostsInput.aggregate c⟩).credits_found_lr = 0
    ∧ (simulate_regimes ⟨revenue, payroll, CostsInput.aggregate c⟩).results_real
      = roundHalfEven2 (calculate_inss_patronal payroll "LUCRO_REAL"
          + roundHalfUp2 (revenue * (165/10000)) + roundHalfUp2 (revenue * (760/10000))
          + (calculate_irrf_csll revenue c "LUCRO_REAL" true).irpj
          + (calculate_irrf_csll revenue c "LUCRO_REAL" true).csll
          + calculate_iss revenue 5) := by
  have h165 : max (revenue * (165/10000)) 0 = revenue * (165/10000) :=
    max_eq_left (by positivity)
  have h760 : max (revenue * (760/10000)) 0 = revenue * (760/10000) :=
    max_eq_left (by positivity)
  have hz : roundHalfUp2 (0 : ℚ) = 0 := by
    norm_num [roundHalfUp2, roundHalfUp]
  constructor
  · simp [simulate_regimes, costsDetailed, calculate_pis_cofins, hz]
  · simp [simulate_regimes, costsDetailed, costsTotal, calculate_pis_cofins,
      h165, h760]

/-- C9 witness: scenario A's inputs instantiate the aggregate-costs theorem. -/
theorem aggregate_costs_yield_no_credits_witness :
    (0 : ℚ) ≤ 100000
    ∧ ((simulate_regimes ⟨100000, 20000, CostsInput.aggregate 40000⟩).credits_found_lr = 0
       ∧ (simulate_regimes ⟨100000, 20000, CostsInput.aggregate 40000⟩).results_real
          = roundHalfEven2 (calculate_inss_patronal 20000 "LUCRO_REAL"
              + roundHalfUp2 (100000 * (165/10000)) + roundHalfUp2 (100000 * (760/10000))
              + (calculate_irrf_csll 100000 40000 "LUCRO_REAL" true).irpj
              + (calculate_irrf_csll 100000 40000 "LUCRO_REAL" true).csll
              + calculate_iss 100000 5)) :=
  ⟨by norm_num, aggregate_costs_yield_no_credits 100000 20000 40000 (by norm_num)⟩

/-- C10 (amended): a period lacking `paid_regime` is treated as
LUCRO_PRESUMIDO; provided its revenue is positive it yields exactly one
EXCLUSAO_ICMS opportunity, and both the EXCLUSAO_ICMS and MONOFASICO values
use the cumulative combined rate of 3.65%. -/
theorem missing_paid_regime_defaults (m : MonthData) (h1 : m.paid_regime = none)
    (h2 : 0 < m.revenue) :
    ((monthOpportunities m).countP (fun o => o.type == "EXCLUSAO_ICMS") = 1)
    ∧ (∀ o ∈ monthOpportunities m, o.type = "EXCLUSAO_ICMS" →
        o.value = m.revenue * (18/100) * (365/10000))
    ∧ (∀ o ∈ monthOpportunities m, o.type = "MONOFASICO" →
        o.value = m.revenue * (5/100) * (365/10000)) := by
  have hused : usedRegime m = "LUCRO_PRESUMIDO" := by simp [usedRegime, h1]
  have hrate : pisCofinsRateFor m = 365/10000 := by simp [pisCofinsRateFor, hused]
  refine ⟨?_, ?_, ?_⟩
  · rw [monthOpportunities_countP_icms]
    rw [if_pos ⟨by rw [hused]; decide, h2⟩]
  · intro o ho ht
    have hv := (mem_monthOpportunities_icms ho ht).1
    rwa [hrate] at hv
  · intro o ho ht
    have hv := (mem_monthOpportunities_mono ho ht).1
    rwa [hrate] at hv

/-- C10 counterexample: a period lacking `paid_regime` but with zero revenue
yields no EXCLUSAO_ICMS opportunity, refuting the unconditional claim. -/
theorem missing_paid_regime_no_icms_at_zero_revenue :
    exMonthZeroRevNoRegime.paid_regime = none
    ∧ (analyze_credits [exMonthZeroRevNoRegime]).opportunities.countP
        (fun o => o.type == "EXCLUSAO_ICMS") = 0 := by
  constructor
  · rfl
  · rw [analyze_credits_opps_eq]
    simp only [List.map_cons, List.map_nil, List.flatten_cons, List.flatten_nil,
      List.append_nil]
    rw [monthOpportunities_countP_icms]
    simp [exMonthZeroRevNoRegime]

/-- C10 witness: the amended statement instantiated at a period lacking
`paid_regime` with revenue 100000. -/
theorem missing_paid_regime_defaults_witness :
    exMonthNoRegime.paid_regime = none
    ∧ (0 : ℚ) < exMonthNoRegime.revenue
    ∧ (((monthOpportunities exMonthNoRegime).countP
          (fun o => o.type == "EXCLUSAO_ICMS") = 1)
       ∧ (∀ o ∈ monthOpportunities exMonthNoRegime, o.type = "EXCLUSAO_ICMS" →
            o.value = exMonthNoRegime.revenue * (18/100) * (365/10000))
       ∧ (∀ o ∈ monthOpportunities exMonthNoRegime, o.type = "MONOFASICO" →
            o.value = exMonthNoRegime.revenue * (5/100) * (365/10000))) :=
  ⟨rfl, by norm_num [exMonthNoRegime],
    missing_paid_regime_defaults exMonthNoRegime rfl (by norm_num [exMonthNoRegime])⟩
